import Mathlib

/-!
Verification of `scripts/generate_feedback.py`: a one-shot feedback pipeline
that resolves the current git head, reads a checkpoint of the last processed
revision, collects a bounded change description, classifies the submitted
artifacts, delegates to a text-generation collaborator (with a fallback
document on failure), persists the result and advances the checkpoint.

The script is embedded shallowly: Python strings become `String` (Python
`len` and slicing act on code points, i.e. on `String.data`), the mutable
world (state file, written artifacts, stdout) becomes an explicit event
trace, and the external collaborators (git introspection, the OpenAI call,
the artifact snapshot on disk) become record fields of an environment.
Fallible collaborator calls are `Except String _` values; an uncaught
Python exception is an `Except.error` result of `main`.
-/

set_option autoImplicit false

namespace GenerateFeedback

/-- Python `len` on a string: the number of code points. -/
def pyLen (s : String) : Nat := s.data.length

/-- Python slicing `s[:n]` on a string: the first `n` code points. -/
def pyTake (n : Nat) (s : String) : String := String.mk (s.data.take n)

/-- Python `sep.join(parts)`. -/
def pyJoin (sep : String) : List String → String
  | [] => ""
  | [x] => x
  | x :: xs => x ++ sep ++ pyJoin sep xs

/-- The ASCII characters matched by Python's regex `\s`
(the script only ever feeds it text read from UTF-8 files). -/
def isPyWs (c : Char) : Bool :=
  c = ' ' ∨ c = '\t' ∨ c = '\n' ∨ c = '\r' ∨ c = '\x0b' ∨ c = '\x0c'

/-- Split a character list at each `'\n'` (Python `str.split("\n")`). -/
def splitNl : List Char → List (List Char)
  | [] => [[]]
  | c :: rest =>
      if c = '\n' then [] :: splitNl rest
      else
        match splitNl rest with
        | l :: ls => (c :: l) :: ls
        | [] => [[c]]

/-- Join lines with `'\n'` (Python `"\n".join`). -/
def joinNl : List (List Char) → List Char
  | [] => []
  | [l] => l
  | l :: ls => l ++ '\n' :: joinNl ls

/-- `pat` is a leading run of `l`. -/
def startsWithL : List Char → List Char → Bool
  | [], _ => true
  | _ :: _, [] => false
  | a :: as, b :: bs => a = b ∧ startsWithL as bs

/-- `pat` occurs contiguously somewhere inside `l` (Python `pat in l`). -/
def containsSub (pat : List Char) : List Char → Bool
  | [] => startsWithL pat []
  | c :: rest => startsWithL pat (c :: rest) || containsSub pat rest

/-- Drop everything up to and including the first occurrence of `pat`;
`none` when `pat` does not occur.  Helper for the non-greedy
`open[\s\S]*?close` regex substitutions of the script. -/
def dropAfter (pat : List Char) : List Char → Option (List Char)
  | [] => none
  | c :: rest =>
      if startsWithL pat (c :: rest) then some (List.drop pat.length (c :: rest))
      else dropAfter pat rest

/-- One fueled scan implementing `re.sub(opn + "[\s\S]*?" + cls, "", text)`:
at each position, if the opening token matches and a closing token occurs
later, the whole (minimal) block is removed and the scan resumes after it;
otherwise the current character is kept.  The fuel is the input length,
which bounds the number of scan steps since every step consumes at least
one input character (the tokens used below are nonempty). -/
def stripBlocksF (opn cls : List Char) : Nat → List Char → List Char
  | 0, l => l
  | _ + 1, [] => []
  | fuel + 1, c :: rest =>
      if startsWithL opn (c :: rest) then
        match dropAfter cls (List.drop opn.length (c :: rest)) with
        | some rest2 => stripBlocksF opn cls fuel rest2
        | none => c :: stripBlocksF opn cls fuel rest
      else c :: stripBlocksF opn cls fuel rest

/-- Remove every non-greedy `opn ... cls` block from `l`. -/
def stripBlocks (opn cls : List Char) (l : List Char) : List Char :=
  stripBlocksF opn cls l.length l

/-- `re.sub(r"#.*", "", text)`: on each line, drop everything from the
first `'#'` on (the regex `.` does not cross newlines). -/
def stripHashComments (l : List Char) : List Char :=
  joinNl ((splitNl l).map (fun line => line.takeWhile (fun c => c ≠ '#')))

/-- A double quote, three of which delimit a Python block string. -/
def dq3 : List Char := ['"', '"', '"']

/-- A single quote (`Char.ofNat 39`), three of which delimit the other
Python block-string form. -/
def sq3 : List Char := [Char.ofNat 39, Char.ofNat 39, Char.ofNat 39]

/-- A backtick (`Char.ofNat 96`), three of which open or close a fenced
Markdown code block. -/
def bt3 : List Char := [Char.ofNat 96, Char.ofNat 96, Char.ofNat 96]

/-- `strip_comments_and_ws_py` from the source: remove `#` line comments,
then `"""..."""` blocks, then `'''...'''` blocks, then all whitespace. -/
def strip_comments_and_ws_py (text : String) : String :=
  let t1 := stripHashComments text.data
  let t2 := stripBlocks dq3 dq3 t1
  let t3 := stripBlocks sq3 sq3 t2
  String.mk (t3.filter (fun c => ¬ isPyWs c))

/-- The Markdown punctuation class `[#>*`_~\-]` removed by `strip_md`. -/
def isMdPunct (c : Char) : Bool :=
  c = '#' ∨ c = '>' ∨ c = '*' ∨ c = Char.ofNat 96 ∨ c = '_' ∨ c = '~' ∨ c = '-'

/-- `strip_md` from the source: remove fenced code blocks, then HTML
comments `<!-- ... -->`, then the Markdown punctuation characters, then
all whitespace. -/
def strip_md (text : String) : String :=
  let t1 := stripBlocks bt3 bt3 text.data
  let t2 := stripBlocks "<!--".data "-->".data t1
  let t3 := t2.filter (fun c => ¬ isMdPunct c)
  String.mk (t3.filter (fun c => ¬ isPyWs c))

/-- The artifact snapshot `main` runs against: the readable contents of
`algorithm.py` and `PSEUDOCODE.md` (`none` when reading raises), whether
the `tests` directory exists, and the file names inside it. -/
structure Snapshot where
  codeFile : Option String
  pseudoFile : Option String
  testDirExists : Bool
  testFiles : List String
  deriving Repr

/-- `read_text_safe` from the source: file contents, or `""` when the
read raises. -/
def read_text_safe : Option String → String
  | some t => t
  | none => ""

/-- A file name matches the glob `test_*.py` (`*` spans no separators,
and file names contain none). -/
def matchesTestGlob (name : String) : Bool :=
  startsWithL "test_".data name.data ∧ startsWithL ".py".data.reverse name.data.reverse

/-- The signals returned by `detect_content_status`. -/
structure ContentStatus where
  code_len : Nat
  pseudo_len : Nat
  has_code : Bool
  has_pseudo : Bool
  tests_exist : Bool
  deriving Repr, DecidableEq

/-- `detect_content_status` from the source: stripped lengths of the two
optional documents, inclusive thresholds 80 (code) and 120 (pseudocode),
and presence of `tests/test_*.py` files. -/
def detect_content_status (snap : Snapshot) : ContentStatus :=
  let code_text := read_text_safe snap.codeFile
  let pseudo_text := read_text_safe snap.pseudoFile
  let code_core_len := if code_text ≠ "" then pyLen (strip_comments_and_ws_py code_text) else 0
  let pseudo_core_len := if pseudo_text ≠ "" then pyLen (strip_md pseudo_text) else 0
  let tests_exist := snap.testDirExists && snap.testFiles.any matchesTestGlob
  { code_len := code_core_len
    pseudo_len := pseudo_core_len
    has_code := decide (80 ≤ code_core_len)
    has_pseudo := decide (120 ≤ pseudo_core_len)
    tests_exist := tests_exist }

/-- The note appended when neither document is meaningful. -/
def noSubstanceNote : String := "No substantial code or pseudocode detected."

/-- The note appended when no test files were found. -/
def noTestsNote : String := "No test files found under \x27tests/\x27."

/-- The `details` list built by `describe_content_status`. -/
def detailsOf (status : ContentStatus) : List String :=
  (if status.has_code then
    ["Detected non-trivial code in algorithm.py (≈" ++ toString status.code_len
      ++ " chars after stripping)."]
  else []) ++
  (if status.has_pseudo then
    ["Detected non-trivial pseudocode in PSEUDOCODE.md (≈" ++ toString status.pseudo_len
      ++ " chars after stripping)."]
  else []) ++
  (if ¬ status.has_code ∧ ¬ status.has_pseudo then [noSubstanceNote] else []) ++
  (if ¬ status.tests_exist then [noTestsNote] else [])

/-- `describe_content_status` from the source: join the detail notes with
a space; when no note applies fall back to a fixed sentence. -/
def describe_content_status (status : ContentStatus) : String :=
  if detailsOf status ≠ [] then pyJoin " " (detailsOf status)
  else "Content status unclear."

/-! ### Checkpoint store

`state.json` is modelled at the level of the value `json.loads` produces: a
`JsonVal`, or a corruption marker for any text the parser rejects, or a
missing file.  `json.dumps`/`json.loads` round-tripping is assumed; JSON
numbers are modelled as integers (the script only ever writes strings). -/

/-- A parsed JSON value. -/
inductive JsonVal where
  | jnull
  | jbool (b : Bool)
  | jnum (n : Int)
  | jstr (s : String)
  | jarr (xs : List JsonVal)
  | jobj (fields : List (String × JsonVal))
  deriving Repr

/-- Python truthiness of a parsed JSON value, as used by
`get_last_processed() or get_initial_commit()`. -/
def JsonVal.truthy : JsonVal → Bool
  | .jnull => false
  | .jbool b => b
  | .jnum n => n ≠ 0
  | .jstr s => s ≠ ""
  | .jarr xs => ¬ xs.isEmpty
  | .jobj fs => ¬ fs.isEmpty

/-- A single-quote character as a one-character string. -/
def sq1 : String := String.mk [Char.ofNat 39]

mutual

/-- Python `repr` of a parsed JSON value (string escaping inside `repr` of
a `str` is not modelled; no claim depends on it). -/
def pyRepr : JsonVal → String
  | .jnull => "None"
  | .jbool b => if b then "True" else "False"
  | .jnum n => toString n
  | .jstr s => sq1 ++ s ++ sq1
  | .jarr xs => "[" ++ pyJoin ", " (pyReprList xs) ++ "]"
  | .jobj fs => "\x7b" ++ pyJoin ", " (pyReprFields fs) ++ "\x7d"

/-- `repr` of each element of a list. -/
def pyReprList : List JsonVal → List String
  | [] => []
  | v :: vs => pyRepr v :: pyReprList vs

/-- `repr` of each `key: value` entry of an object. -/
def pyReprFields : List (String × JsonVal) → List String
  | [] => []
  | (k, v) :: fs => (sq1 ++ k ++ sq1 ++ ": " ++ pyRepr v) :: pyReprFields fs

end

/-- Python `str()` of a parsed JSON value, as produced by f-string
interpolation. -/
def JsonVal.pyStr : JsonVal → String
  | .jstr s => s
  | v => pyRepr v

/-- Python `==` between a parsed JSON value and a `str`: only equal
strings compare equal; every other type compares unequal. -/
def pyEqStr : JsonVal → String → Bool
  | .jstr s, t => s == t
  | _, _ => false

/-- Python `v[:7]` as evaluated while formatting the prompt (`base=last[:7]`):
strings slice to their first seven code points, lists slice and are then
rendered by `str()`, and every other type raises `TypeError`. -/
def pySlice7 : JsonVal → Except String String
  | .jstr s => .ok (pyTake 7 s)
  | .jarr xs => .ok (JsonVal.jarr (xs.take 7)).pyStr
  | v => .error ("TypeError: unsliceable checkpoint value " ++ v.pyStr)

/-- The on-disk state of `.meta-feedback/state.json`. -/
inductive Stored where
  | absent
  | corrupt
  | parsed (v : JsonVal)

/-- Python `dict.get` over the parsed object's fields (first match;
`json.loads` produces unique keys). -/
def lookupField : List (String × JsonVal) → String → Option JsonVal
  | [], _ => none
  | (k, v) :: rest, key => if k = key then some v else lookupField rest key

/-- `get_last_processed` from the source: `none` when the state file is
missing, when `json.loads` raises, or when the parsed value is not an
object (`.get` raises `AttributeError`, caught by the bare `except`);
otherwise the `"last_processed"` field, `none` when it is missing. -/
def get_last_processed : Stored → Option JsonVal
  | .absent => none
  | .corrupt => none
  | .parsed (.jobj fs) => lookupField fs "last_processed"
  | .parsed _ => none

/-- `set_last_processed` from the source: the state file after writing
`json.dumps({"last_processed": sha})`. -/
def set_last_processed (sha : String) : Stored :=
  .parsed (.jobj [("last_processed", .jstr sha)])

/-- `get_last_processed() or get_initial_commit()` in `main`: the stored
value when present and truthy, otherwise the root revision. -/
def resolveLast (st : Stored) (initialCommit : String) : JsonVal :=
  match get_last_processed st with
  | some v => if v.truthy then v else .jstr initialCommit
  | none => .jstr initialCommit

/-! ### Change-set collection -/

/-- The repository-introspection collaborator: each operation is the
(stripped) stdout of the corresponding shell command, or the exception
`sh` raises on a non-zero exit. -/
structure GitOps where
  diffNameStatus : String → String → Except String String
  diffShortstat : String → String → Except String String
  diffPatch : String → String → Except String String
  lsTree : Except String String
  gitLog : Except String String

/-- The dictionary returned by `git_diff`. -/
structure DiffInfo where
  name_status : String
  shortstat : String
  patch : String
  tree : String
  logs : String
  deriving Repr, DecidableEq

/-- A `try/except` that substitutes `""` for a failed optional command. -/
def recoverEmpty : Except String String → String
  | .ok t => t
  | .error _ => ""

/-- `git_diff` from the source.  The three diff commands run only when
`base != head` (a Python comparison against the original checkpoint
value) and any failure among them propagates, aborting the caller; the
tree listing and recent log are wrapped in `try/except` and recovered as
`""`.  The checkpoint value is rendered by `str()` into the commands. -/
def git_diff (g : GitOps) (base : JsonVal) (head : String) : Except String DiffInfo :=
  let neq : Bool := ¬ pyEqStr base head
  match (if neq then g.diffNameStatus base.pyStr head else .ok "") with
  | .error e => .error e
  | .ok name_status =>
    match (if neq then g.diffShortstat base.pyStr head else .ok "") with
    | .error e => .error e
    | .ok shortstat =>
      match (if neq then g.diffPatch base.pyStr head else .ok "") with
      | .error e => .error e
      | .ok patch =>
        .ok { name_status := name_status
              shortstat := shortstat
              patch := patch
              tree := recoverEmpty g.lsTree
              logs := recoverEmpty g.gitLog }

/-! ### The fallback document and `textwrap.dedent` -/

/-- A space or tab, the characters a dedent margin consists of. -/
def isIndentChar (c : Char) : Bool := c = ' ' ∨ c = '\t'

/-- A line contains a character outside `[ \t]` (newlines cannot occur
inside a split line), so it participates in the margin computation. -/
def hasContent (l : List Char) : Bool := l.any (fun c => ¬ isIndentChar c)

/-- Longest common prefix of two character lists; `textwrap.dedent`
reduces the margin with exactly this operation (its `startswith` cases
are the two degenerate common-prefix cases). -/
def sharedLead : List Char → List Char → List Char
  | a :: as, b :: bs => if a = b then a :: sharedLead as bs else []
  | _, _ => []

/-- The common margin of the lines that have content (`None` and the
empty margin coincide: both suppress the removal pass). -/
def marginOf (lines : List (List Char)) : List Char :=
  match (lines.filter hasContent).map (fun l => l.takeWhile isIndentChar) with
  | [] => []
  | i :: is => is.foldl sharedLead i

/-- Remove a nonempty margin from the front of every line that carries it
(`re.sub(r'(?m)^' + margin, '', text)`). -/
def removeMargin (m : List Char) (lines : List (List Char)) : List (List Char) :=
  if m = [] then lines
  else lines.map (fun l => if startsWithL m l then l.drop m.length else l)

/-- `textwrap.dedent` on a character list, following CPython: blank every
whitespace-only line, compute the common margin of the remaining lines,
remove it. -/
def dedentL (t : List Char) : List Char :=
  let lines := (splitNl t).map (fun l => if l ≠ [] ∧ l.all isIndentChar then [] else l)
  joinNl (removeMargin (marginOf lines) lines)

/-- `textwrap.dedent` on a string. -/
def dedent (s : String) : String := String.mk (dedentL s.data)

/-- Twelve spaces: the indentation of the fallback f-string literal. -/
def sp12 : String := "            "

/-- The header line of the fallback document. -/
def hdrLine : String := "# Meta-Feedback (Process-Oriented)"

/-- The text before the interpolated error message. -/
def errPre : String := "The feedback service encountered an error: "

/-- The retry instruction of the fallback document. -/
def retryLine : String := "Please retry the instructor-triggered workflow."

/-- The fallback f-string literal before `dedent`, with the error message
interpolated (the leading newline is escaped away by the `\` after the
opening quotes; the closing quotes leave a final whitespace-only line). -/
def fallbackRaw (e : String) : String :=
  sp12 ++ hdrLine ++ "\n" ++ sp12 ++ errPre ++ e ++ "\n" ++ sp12 ++ retryLine ++ "\n" ++ sp12

/-- The first line of the raw fallback literal, as characters. -/
def rawLine1 : List Char := (sp12 ++ hdrLine).data

/-- The second line of the raw fallback literal up to the interpolated
error message, as characters. -/
def rawPre2 : List Char := (sp12 ++ errPre).data

/-- The third line of the raw fallback literal, as characters. -/
def rawLine3 : List Char := (sp12 ++ retryLine).data

/-- The fallback document written when `call_gpt` raises. -/
def fallback_doc (e : String) : String := dedent (fallbackRaw e)

/-! ### Prompt composition -/

/-- `SYSTEM_PROMPT` from the source. -/
def SYSTEM_PROMPT : String :=
  "You are a teaching assistant generating process-oriented meta-feedback for a university algorithms assignment.\n"
  ++ "Students may submit code (algorithm.py) OR pseudocode (PSEUDOCODE.md). English only.\n"
  ++ "Focus on actionable guidance about planning, implementation/pseudocode quality, validation (tests or worked examples), and reflection (complexity, invariants/exchange-argument, counterexamples).\n"
  ++ "If the repository is minimal or empty, you should still provide constructive, step-by-step guidance tailored to the detected state—do not assume a specific algorithm family (e.g., not necessarily greedy).\n"
  ++ "Be concise and structured; use Markdown with short bullets where helpful. Do NOT include boilerplate or generic platitudes.\n"

/-- `x or "(none)"` applied to each optional prompt field. -/
def orNone (s : String) : String := if s ≠ "" then s else "(none)"

/-- `d["patch"][:20000] if d["patch"] else "(none)"`: the bounded patch
field of the prompt. -/
def promptPatch (p : String) : String := if p ≠ "" then pyTake 20000 p else "(none)"

/-- The tail of `USER_PROMPT_TEMPLATE` after the content summary. -/
def promptTail : String :=
  "\n\nUse this structure:\n\nMeta-Feedback (Process-Oriented)\nSignals Observed\n\n"
  ++ "(What changed? Small-step commits? Clear messages?)\n\n"
  ++ "(Any structure/API changes? Added/removed helpers?)\n\n"
  ++ "Actionable Suggestions\n\nPlanning:\n\nImplementation / Pseudocode quality:\n\n"
  ++ "Validation:\n\nReflection:\n\n"
  ++ "Technique-Specific Considerations (only if applicable)\n\n"
  ++ "Clearly state the chosen approach/criterion and why it fits the problem.\n\n"
  ++ "Mark an invariant OR outline an exchange/correctness sketch appropriate for the chosen technique.\n\n"
  ++ "Compare to a naive/baseline approach (correctness + complexity).\n\n"
  ++ "Walk through 2 tiny examples end-to-end.\n\n"
  ++ "Consider tricky or near-counterexample cases and how to detect/handle them.\n"

/-- `USER_PROMPT_TEMPLATE.format(...)` from the source: the section texts
with the already-defaulted field values interpolated in fixed order. -/
def build_user_prompt (base7 head7 logs tree name_status patchField content_summary : String) :
    String :=
  "Generate process-focused meta-feedback for the latest change (" ++ base7 ++ ".." ++ head7
  ++ ").\n\n[Recent commits]\n" ++ logs
  ++ "\n\n[Project tree (truncated)]\n" ++ tree
  ++ "\n\n[Changed files (name-status)]\n" ++ name_status
  ++ "\n\n[Diff (unified; may be truncated)]\n\x60\x60\x60diff\n" ++ patchField
  ++ "\n\x60\x60\x60\n\n[Repository content summary]\n" ++ content_summary
  ++ promptTail

/-! ### The orchestrator -/

/-- An observable effect of one invocation, in program order. -/
inductive Event where
  | writeArtifact (name text : String)
  | writeCheckpoint (sha : String)
  | printLine (s : String)
  deriving Repr, DecidableEq

/-- Everything one invocation of `main` consumes: the resolved head and
root revisions, the state file, the introspection collaborator, the
artifact snapshot, the generation collaborator (system prompt and user
prompt to response or raised error), and the minute-resolution UTC
timestamp. -/
structure Env where
  head : String
  initialCommit : String
  stored : Stored
  git : GitOps
  snap : Snapshot
  gpt : String → String → Except String String
  stamp : String

/-- The no-op status line. -/
def noopMsg : String := "No new commits to process."

/-- `main` from the source, returning its outcome (`.error` is an
uncaught Python exception) together with the trace of writes and prints
it performed.  The steps mirror the source order: resolve head and
checkpoint, short-circuit when they are equal, collect the diff (fatal on
failure), classify and summarize the snapshot, format the prompt,
delegate to the generation collaborator with the fallback document on
failure, write the artifact, advance the checkpoint, print the status. -/
def main (env : Env) : Except String Unit × List Event :=
  let head := env.head
  let lastV := resolveLast env.stored env.initialCommit
  if pyEqStr lastV head then
    (.ok (), [.printLine noopMsg])
  else
    match git_diff env.git lastV head with
    | .error e => (.error e, [])
    | .ok d =>
      let status := detect_content_status env.snap
      let content_summary := describe_content_status status
      match pySlice7 lastV with
      | .error e => (.error e, [])
      | .ok base7 =>
        let user_prompt := build_user_prompt base7 (pyTake 7 head) (orNone d.logs)
          (orNone d.tree) (orNone d.name_status) (promptPatch d.patch) content_summary
        let feedback_md :=
          match env.gpt SYSTEM_PROMPT user_prompt with
          | .ok t => t
          | .error e => fallback_doc e
        let out := "Meta-Feedback_" ++ env.stamp ++ ".md"
        (.ok (), [.writeArtifact out feedback_md, .writeCheckpoint head,
                  .printLine ("Wrote " ++ out)])

/-- The checkpoint values written during a trace, in order. -/
def checkpointWrites : List Event → List String
  | [] => []
  | .writeCheckpoint s :: es => s :: checkpointWrites es
  | _ :: es => checkpointWrites es

/-- The artifacts written during a trace, in order. -/
def artifactWrites : List Event → List (String × String)
  | [] => []
  | .writeArtifact n t :: es => (n, t) :: artifactWrites es
  | _ :: es => artifactWrites es

/-! ### Concrete inputs used by the witnesses -/

/-- A snapshot whose code document strips to exactly `n` characters. -/
def snapWithCode (n : Nat) : Snapshot :=
  { codeFile := some (String.mk (List.replicate n 'a'))
    pseudoFile := none, testDirExists := false, testFiles := [] }

/-- A snapshot whose pseudocode document strips to exactly `n` characters. -/
def snapWithPseudo (n : Nat) : Snapshot :=
  { codeFile := none
    pseudoFile := some (String.mk (List.replicate n 'a'))
    testDirExists := false, testFiles := [] }

/-- A `ContentStatus` with nothing meaningful. -/
def statusNone : ContentStatus :=
  { code_len := 0, pseudo_len := 0, has_code := false, has_pseudo := false,
    tests_exist := false }

/-- A synthetic patch of length 20500. -/
def patch20500 : String := String.mk (List.replicate 20500 'a')

/-- An introspection collaborator whose every operation succeeds. -/
def gitOK : GitOps :=
  { diffNameStatus := fun _ _ => .ok "M\talgorithm.py"
    diffShortstat := fun _ _ => .ok "1 file changed"
    diffPatch := fun _ _ => .ok "diff --git a b"
    lsTree := .ok "treetxt"
    gitLog := .ok "logtxt" }

/-- An empty artifact snapshot. -/
def snapEmpty : Snapshot :=
  { codeFile := none, pseudoFile := none, testDirExists := false, testFiles := [] }

/-- A fresh-checkout invocation: two revisions, no checkpoint, all
collaborators succeed. -/
def envA : Env :=
  { head := "h1", initialCommit := "r0", stored := .absent, git := gitOK, snap := snapEmpty
    gpt := fun _ _ => .ok "FB", stamp := "20260101_0000" }

/-- Like `envA` but with a generation collaborator that always fails. -/
def envFail : Env :=
  { envA with gpt := fun _ _ => .error "boom" }

/-- Like `envA` but with a generation collaborator that always fails
with an error message containing a newline. -/
def envFailNl : Env :=
  { envA with gpt := fun _ _ => .error "A\nB" }

/-- Like `envA` but with a failing patch introspection. -/
def envPatchFail : Env :=
  { envA with git := { gitOK with diffPatch := fun _ _ => .error "fatal: bad object" } }

/-- A single-commit project: the head is the root revision and no
checkpoint is stored. -/
def envSingle : Env :=
  { envA with head := "r0" }

/-! ### Helper lemmas -/

theorem data_append (x y : String) : (x ++ y).data = x.data ++ y.data := rfl

theorem data_head_append (x y : String) (c : Char) (h : x.data.head? = some c) :
    (x ++ y).data.head? = some c := by
  show (x.data ++ y.data).head? = some c
  cases hx : x.data with
  | nil => rw [hx] at h; simp at h
  | cons a t => rw [hx] at h; simp at h; simp [h]

theorem ne_of_first_char (x y : String) (c d : Char)
    (hx : x.data.head? = some c) (hy : y.data.head? = some d) (hcd : c ≠ d) : x ≠ y := by
  intro h
  rw [h, hy] at hx
  exact hcd (Option.some.inj hx).symm

theorem splitNl_append (xs ys : List Char) (h : '\n' ∉ xs) :
    splitNl (xs ++ '\n' :: ys) = xs :: splitNl ys := by
  induction xs with
  | nil => simp [splitNl]
  | cons a t ih =>
      have ha : a ≠ '\n' := fun hh => h (hh ▸ List.mem_cons_self a t)
      have ht : '\n' ∉ t := fun hh => h (List.mem_cons_of_mem a hh)
      simp only [List.cons_append, splitNl, if_neg ha, List.append_eq, ih ht]

theorem splitNl_of_not_mem (xs : List Char) (h : '\n' ∉ xs) : splitNl xs = [xs] := by
  induction xs with
  | nil => rfl
  | cons a t ih =>
      have ha : a ≠ '\n' := fun hh => h (hh ▸ List.mem_cons_self a t)
      have ht : '\n' ∉ t := fun hh => h (List.mem_cons_of_mem a hh)
      simp only [splitNl, if_neg ha, ih ht]

theorem takeWhile_append_of_any (p : Char → Bool) (a b : List Char)
    (h : a.any (fun c => ¬ p c) = true) : (a ++ b).takeWhile p = a.takeWhile p := by
  induction a with
  | nil => simp at h
  | cons x t ih =>
      cases hp : p x with
      | true =>
          have ht : t.any (fun c => ¬ p c) = true := by
            simp [List.any_cons, hp] at h
            simpa using h
          simp only [List.cons_append, List.takeWhile_cons, hp, ih ht]
      | false => simp [List.takeWhile_cons, hp]

theorem startsWithL_append_left (pat a b : List Char) (h : startsWithL pat a = true) :
    startsWithL pat (a ++ b) = true := by
  induction pat generalizing a with
  | nil => rfl
  | cons x t ih =>
      cases a with
      | nil => simp [startsWithL] at h
      | cons y u =>
          simp only [startsWithL, Bool.and_eq_true, decide_eq_true_eq] at h
          simp only [List.cons_append, startsWithL, Bool.and_eq_true, decide_eq_true_eq]
          exact ⟨h.1, ih u h.2⟩

/-! ### Claim theorems -/

set_option maxRecDepth 8000 in
/-- C7: the classifier marks the code document meaningful exactly when its
stripped length is at least 80 and the pseudocode document meaningful
exactly when its stripped length is at least 120; stripped-code length 79
classifies as not-meaningful and 80 as meaningful, and likewise 119 vs 120
for pseudocode. -/
theorem claim_c7 :
    (∀ snap : Snapshot,
      (detect_content_status snap).has_code
        = decide (80 ≤ (detect_content_status snap).code_len) ∧
      (detect_content_status snap).has_pseudo
        = decide (120 ≤ (detect_content_status snap).pseudo_len)) ∧
    (detect_content_status (snapWithCode 79)).code_len = 79 ∧
    (detect_content_status (snapWithCode 79)).has_code = false ∧
    (detect_content_status (snapWithCode 80)).code_len = 80 ∧
    (detect_content_status (snapWithCode 80)).has_code = true ∧
    (detect_content_status (snapWithPseudo 119)).pseudo_len = 119 ∧
    (detect_content_status (snapWithPseudo 119)).has_pseudo = false ∧
    (detect_content_status (snapWithPseudo 120)).pseudo_len = 120 ∧
    (detect_content_status (snapWithPseudo 120)).has_pseudo = true := by
  refine ⟨fun snap => ⟨rfl, rfl⟩, ?_, ?_, ?_, ?_, ?_, ?_, ?_, ?_⟩ <;> decide

/-- C8: `get_last_processed` never raises: a missing state file, an
unparseable one, a parsed non-object and a parsed object without the
`last_processed` field all yield `none`, and `main` then substitutes the
root revision as the effective base. -/
theorem claim_c8 :
    get_last_processed .absent = none ∧
    get_last_processed .corrupt = none ∧
    (∀ v : JsonVal, (∀ fs, v ≠ .jobj fs) → get_last_processed (.parsed v) = none) ∧
    (∀ fs, lookupField fs "last_processed" = none →
      get_last_processed (.parsed (.jobj fs)) = none) ∧
    (∀ (st : Stored) (root : String), get_last_processed st = none →
      resolveLast st root = .jstr root) := by
  refine ⟨rfl, rfl, ?_, ?_, ?_⟩
  · intro v hv
    cases v with
    | jobj fs => exact absurd rfl (hv fs)
    | jnull => rfl
    | jbool b => rfl
    | jnum n => rfl
    | jstr s => rfl
    | jarr xs => rfl
  · intro fs h
    simpa [get_last_processed] using h
  · intro st root h
    simp [resolveLast, h]

theorem claim_c8_witness :
    get_last_processed (.parsed (.jstr "oops")) = none ∧
    get_last_processed (.parsed (.jobj [("other", .jstr "x")])) = none ∧
    resolveLast .corrupt "r0" = .jstr "r0" :=
  ⟨claim_c8.2.2.1 (.jstr "oops") (fun _ h => JsonVal.noConfusion h),
    claim_c8.2.2.2.1 [("other", .jstr "x")] rfl,
    claim_c8.2.2.2.2 .corrupt "r0" rfl⟩

/-- C9: when both documents are absent, classification raises no error and
yields stripped lengths 0 with `has_code = false` and `has_pseudo =
false`, and the produced summary contains the note
"No substantial code or pseudocode detected." -/
theorem claim_c9 : ∀ (td : Bool) (tf : List String),
    detect_content_status ⟨none, none, td, tf⟩
      = ⟨0, 0, false, false, td && tf.any matchesTestGlob⟩ ∧
    containsSub noSubstanceNote.data
      (describe_content_status
        (detect_content_status ⟨none, none, td, tf⟩)).data = true := by
  intro td tf
  refine ⟨rfl, ?_⟩
  have h0 : detect_content_status ⟨none, none, td, tf⟩
      = ⟨0, 0, false, false, td && tf.any matchesTestGlob⟩ := rfl
  rw [h0]
  clear h0
  generalize (td && tf.any matchesTestGlob) = b
  cases b <;> decide

theorem pyJoin_head (x : String) (xs : List String) (c : Char)
    (hx : x.data.head? = some c) :
    (pyJoin " " (x :: xs)).data.head? = some c := by
  cases xs with
  | nil => simpa [pyJoin] using hx
  | cons y ys =>
      show ((x ++ " ") ++ pyJoin " " (y :: ys)).data.head? = some c
      exact data_head_append _ _ _ (data_head_append _ _ _ hx)

theorem pyJoin_ne_unclear (x : String) (xs : List String) (c : Char)
    (hx : x.data.head? = some c) (hc : c ≠ 'C') :
    pyJoin " " (x :: xs) ≠ "Content status unclear." :=
  ne_of_first_char _ _ c 'C' (pyJoin_head x xs c hx) rfl hc

/-- C10: for every `ContentStatus`, the summary contains at least one
note — whenever neither document is meaningful the
"No substantial code or pseudocode detected." note is appended — so
`describe_content_status` always returns the joined notes and never the
"Content status unclear." fallback sentence. -/
theorem claim_c10 : ∀ s : ContentStatus,
    detailsOf s ≠ [] ∧
    describe_content_status s = pyJoin " " (detailsOf s) ∧
    (s.has_code = false → s.has_pseudo = false → noSubstanceNote ∈ detailsOf s) ∧
    describe_content_status s ≠ "Content status unclear." := by
  rintro ⟨cl, pl, hc, hp, te⟩
  cases hc <;> cases hp <;> cases te <;>
    refine ⟨by simp [detailsOf], rfl, by simp [detailsOf, noSubstanceNote], ?_⟩ <;>
    first
      | exact pyJoin_ne_unclear _ _ 'N' rfl (by decide)
      | exact pyJoin_ne_unclear _ _ 'D'
          (data_head_append _ _ _ (data_head_append _ _ _ rfl)) (by decide)

theorem claim_c10_witness :
    noSubstanceNote ∈ detailsOf statusNone ∧
    describe_content_status statusNone ≠ "Content status unclear." :=
  ⟨(claim_c10 statusNone).2.2.1 rfl rfl, (claim_c10 statusNone).2.2.2⟩

/-- C6: before being placed in the composed generation request, the patch
text is truncated to its first 20000 characters with the remainder
discarded and nothing appended, and exactly that truncation appears
verbatim inside the composed request; for a patch of length 20500 the
truncation keeps exactly the first 20000 characters. -/
theorem claim_c6 : ∀ p : String, pyLen p = 20500 →
    promptPatch p = pyTake 20000 p ∧
    pyLen (promptPatch p) = 20000 ∧
    (promptPatch p).data ++ p.data.drop 20000 = p.data ∧
    (∀ base7 head7 logs tree ns summary : String,
      ∃ pre post : List Char,
        (build_user_prompt base7 head7 logs tree ns (promptPatch p) summary).data
          = pre ++ ((promptPatch p).data ++ post)) := by
  intro p hp
  have hne : p ≠ "" := by
    intro h
    rw [h] at hp
    simp [pyLen] at hp
  have h1 : promptPatch p = pyTake 20000 p := by simp [promptPatch, hne]
  refine ⟨h1, ?_, ?_, ?_⟩
  · rw [h1]
    have hl : p.data.length = 20500 := hp
    simp [pyLen, pyTake, List.length_take, hl]
  · rw [h1]
    exact List.take_append_drop 20000 p.data
  · intro base7 head7 logs tree ns summary
    refine ⟨("Generate process-focused meta-feedback for the latest change ("
        ++ base7 ++ ".." ++ head7
        ++ ").\n\n[Recent commits]\n" ++ logs
        ++ "\n\n[Project tree (truncated)]\n" ++ tree
        ++ "\n\n[Changed files (name-status)]\n" ++ ns
        ++ "\n\n[Diff (unified; may be truncated)]\n\x60\x60\x60diff\n").data,
      ("\n\x60\x60\x60\n\n[Repository content summary]\n" ++ summary ++ promptTail).data, ?_⟩
    simp only [build_user_prompt, data_append, List.append_assoc]

theorem claim_c6_witness :
    pyLen patch20500 = 20500 ∧
    (promptPatch patch20500 = pyTake 20000 patch20500 ∧
      pyLen (promptPatch patch20500) = 20000 ∧
      (promptPatch patch20500).data ++ patch20500.data.drop 20000 = patch20500.data ∧
      (∀ base7 head7 logs tree ns summary : String,
        ∃ pre post : List Char,
          (build_user_prompt base7 head7 logs tree ns (promptPatch patch20500) summary).data
            = pre ++ ((promptPatch patch20500).data ++ post))) := by
  have hw : pyLen patch20500 = 20500 := by
    show (List.replicate 20500 'a').length = 20500
    rw [List.length_replicate]
  exact ⟨hw, claim_c6 patch20500 hw⟩

/-- C1: for every invocation that reaches the persisting step, the
checkpoint stored after the invocation equals the head revision resolved
at the invocation's start — whatever the generation outcome — and the
checkpoint is written at most once per invocation. -/
theorem claim_c1 : ∀ env : Env,
    (checkpointWrites (main env).2).length ≤ 1 ∧
    (artifactWrites (main env).2 ≠ [] → checkpointWrites (main env).2 = [env.head]) := by
  intro env
  cases hpe : pyEqStr (resolveLast env.stored env.initialCommit) env.head with
  | true => simp [main, hpe, checkpointWrites, artifactWrites]
  | false =>
      rcases hgd : git_diff env.git (resolveLast env.stored env.initialCommit) env.head with e | d
      · simp [main, hpe, hgd, checkpointWrites, artifactWrites]
      · rcases hs : pySlice7 (resolveLast env.stored env.initialCommit) with e2 | b7 <;>
          simp [main, hpe, hgd, hs, checkpointWrites, artifactWrites]

theorem claim_c1_witness :
    artifactWrites (main envA).2 ≠ [] ∧ checkpointWrites (main envA).2 = [envA.head] :=
  ⟨by decide, (claim_c1 envA).2 (by decide)⟩

/-- C2: if the stored checkpoint (or the root revision when it is absent
or falsy) equals the resolved head, the invocation only prints the
informational no-op line, writing nothing and mutating nothing; in
particular a second invocation right after a completed one — the
checkpoint now holds the head and no new revision appeared — performs no
write and leaves the checkpoint unchanged. -/
theorem claim_c2 :
    (∀ env : Env,
      pyEqStr (resolveLast env.stored env.initialCommit) env.head = true →
      main env = (.ok (), [.printLine noopMsg])) ∧
    (∀ env : Env, env.head ≠ "" →
      main { env with stored := set_last_processed env.head }
        = (.ok (), [.printLine noopMsg])) := by
  constructor
  · intro env h
    simp [main, h]
  · intro env h
    have hr : resolveLast (set_last_processed env.head) env.initialCommit = .jstr env.head := by
      simp [resolveLast, set_last_processed, get_last_processed, lookupField, JsonVal.truthy, h]
    simp [main, hr, pyEqStr]

theorem claim_c2_witness :
    envA.head ≠ "" ∧
    main { envA with stored := set_last_processed envA.head }
      = (.ok (), [.printLine noopMsg]) :=
  ⟨by decide, claim_c2.2 envA (by decide)⟩

/-- C4: when base differs from head, a failure of any of the three
diff-derived introspection operations aborts the whole invocation with an
empty effect trace — no artifact, no checkpoint mutation — whereas
failures of the tree listing and the recent log are recovered by
substituting the empty string, the collection still succeeding. -/
theorem claim_c4 :
    (∀ (env : Env) (e : String),
      pyEqStr (resolveLast env.stored env.initialCommit) env.head = false →
      git_diff env.git (resolveLast env.stored env.initialCommit) env.head = .error e →
      main env = (.error e, [])) ∧
    (∀ (g : GitOps) (base : JsonVal) (head e : String),
      pyEqStr base head = false →
      (g.diffNameStatus base.pyStr head = .error e → git_diff g base head = .error e) ∧
      (∀ ns, g.diffNameStatus base.pyStr head = .ok ns →
        g.diffShortstat base.pyStr head = .error e → git_diff g base head = .error e) ∧
      (∀ ns ss, g.diffNameStatus base.pyStr head = .ok ns →
        g.diffShortstat base.pyStr head = .ok ss →
        g.diffPatch base.pyStr head = .error e → git_diff g base head = .error e)) ∧
    (∀ (g : GitOps) (base : JsonVal) (head e1 e2 ns ss p : String),
      pyEqStr base head = false →
      g.lsTree = .error e1 → g.gitLog = .error e2 →
      g.diffNameStatus base.pyStr head = .ok ns →
      g.diffShortstat base.pyStr head = .ok ss →
      g.diffPatch base.pyStr head = .ok p →
      git_diff g base head = .ok ⟨ns, ss, p, "", ""⟩) := by
  refine ⟨?_, ?_, ?_⟩
  · intro env e hpe hgd
    simp [main, hpe, hgd]
  · intro g base head e hpe
    exact ⟨fun h1 => by simp [git_diff, hpe, h1],
      fun ns h1 h2 => by simp [git_diff, hpe, h1, h2],
      fun ns ss h1 h2 h3 => by simp [git_diff, hpe, h1, h2, h3]⟩
  · intro g base head e1 e2 ns ss p hpe ht hl h1 h2 h3
    simp [git_diff, hpe, h1, h2, h3, ht, hl, recoverEmpty]

theorem claim_c4_witness :
    pyEqStr (resolveLast envPatchFail.stored envPatchFail.initialCommit) envPatchFail.head
      = false ∧
    git_diff envPatchFail.git (resolveLast envPatchFail.stored envPatchFail.initialCommit)
      envPatchFail.head = .error "fatal: bad object" ∧
    main envPatchFail = (.error "fatal: bad object", []) :=
  ⟨rfl, rfl, claim_c4.1 envPatchFail "fatal: bad object" rfl rfl⟩

/-- C5 counterexample: in a single-commit project (head = root revision,
no stored checkpoint) the claim says the orchestrator proceeds to
Generating rather than short-circuiting; in the code the absent
checkpoint falls back to the root revision, which equals the head, so the
invocation short-circuits at the top with the no-op line and neither
collects, nor generates, nor writes anything. -/
theorem claim_c5_counterexample :
    envSingle.head = envSingle.initialCommit ∧
    get_last_processed envSingle.stored = none ∧
    main envSingle = (.ok (), [.printLine noopMsg]) ∧
    artifactWrites (main envSingle).2 = [] :=
  ⟨rfl, rfl, rfl, rfl⟩

/-- C5 amended: when base equals head, `git_diff` returns empty strings
for the three diff-derived fields, its result does not depend on the
three diff introspection operations (they are not invoked), and the tree
listing and recent log are still collected; however, in a single-commit
project with no (or no parseable) stored checkpoint, base = head = root
revision holds at the top level too, so the orchestrator short-circuits
with the no-op result instead of proceeding to Generating. -/
theorem claim_c5_amended :
    (∀ (g : GitOps) (hd : String),
      git_diff g (.jstr hd) hd
        = .ok ⟨"", "", "", recoverEmpty g.lsTree, recoverEmpty g.gitLog⟩) ∧
    (∀ (g g' : GitOps) (base : JsonVal) (hd : String),
      pyEqStr base hd = true →
      g.lsTree = g'.lsTree → g.gitLog = g'.gitLog →
      git_diff g base hd = git_diff g' base hd) ∧
    (∀ env : Env,
      env.head = env.initialCommit → get_last_processed env.stored = none →
      main env = (.ok (), [.printLine noopMsg])) := by
  refine ⟨?_, ?_, ?_⟩
  · intro g hd
    simp [git_diff, pyEqStr]
  · intro g g' base hd hpe ht hl
    simp [git_diff, hpe, ht, hl]
  · intro env hh hs
    have hr : resolveLast env.stored env.initialCommit = .jstr env.initialCommit := by
      simp [resolveLast, hs]
    simp [main, hr, pyEqStr, hh]

theorem claim_c5_amended_witness :
    envSingle.head = envSingle.initialCommit ∧
    get_last_processed envSingle.stored = none ∧
    git_diff gitOK (.jstr "r0") "r0"
      = .ok ⟨"", "", "", recoverEmpty gitOK.lsTree, recoverEmpty gitOK.gitLog⟩ ∧
    main envSingle = (.ok (), [.printLine noopMsg]) :=
  ⟨rfl, rfl, claim_c5_amended.1 gitOK "r0", claim_c5_amended.2.2 envSingle rfl rfl⟩

theorem fallbackRaw_data (e : String) :
    (fallbackRaw e).data
      = rawLine1 ++ '\n' :: ((rawPre2 ++ e.data) ++ '\n' :: (rawLine3 ++ '\n' :: sp12.data)) := by
  simp [fallbackRaw, rawLine1, rawPre2, rawLine3, data_append, List.append_assoc]

theorem splitNl_fallbackRaw (e : String) (he : '\n' ∉ e.data) :
    splitNl (fallbackRaw e).data = [rawLine1, rawPre2 ++ e.data, rawLine3, sp12.data] := by
  have h2 : '\n' ∉ rawPre2 ++ e.data := by
    intro hmem
    rcases List.mem_append.mp hmem with hmem | hmem
    · exact absurd hmem (by decide)
    · exact he hmem
  rw [fallbackRaw_data, splitNl_append _ _ (by decide), splitNl_append _ _ h2,
    splitNl_append _ _ (by decide), splitNl_of_not_mem _ (by decide)]

/-- `textwrap.dedent` of the fallback literal, for an error message
without newlines: the twelve-space margin is removed from the three
content lines and the trailing whitespace-only line is blanked. -/
theorem fallback_doc_eq (e : String) (he : '\n' ∉ e.data) :
    fallback_doc e
      = "# Meta-Feedback (Process-Oriented)\nThe feedback service encountered an error: "
        ++ e ++ "\nPlease retry the instructor-triggered workflow.\n" := by
  have hb2 : (rawPre2 ++ e.data).all isIndentChar = false := by
    rw [List.all_append]
    have h0 : rawPre2.all isIndentChar = false := by decide
    simp [h0]
  have hblank : ((splitNl (fallbackRaw e).data).map
        (fun l => if l ≠ [] ∧ l.all isIndentChar then [] else l))
      = [rawLine1, rawPre2 ++ e.data, rawLine3, []] := by
    rw [splitNl_fallbackRaw e he]
    have g1 : (if rawLine1 ≠ [] ∧ rawLine1.all isIndentChar then ([] : List Char)
        else rawLine1) = rawLine1 := by decide
    have g2 : (if (rawPre2 ++ e.data) ≠ [] ∧ (rawPre2 ++ e.data).all isIndentChar
        then ([] : List Char) else rawPre2 ++ e.data) = rawPre2 ++ e.data := by
      rw [if_neg]
      intro h
      rw [hb2] at h
      exact Bool.false_ne_true h.2
    have g3 : (if rawLine3 ≠ [] ∧ rawLine3.all isIndentChar then ([] : List Char)
        else rawLine3) = rawLine3 := by decide
    have g4 : (if sp12.data ≠ [] ∧ sp12.data.all isIndentChar then ([] : List Char)
        else sp12.data) = [] := by decide
    simp only [List.map_cons, List.map_nil]
    rw [g1, g2, g3, g4]
  have hfil : ([rawLine1, rawPre2 ++ e.data, rawLine3, ([] : List Char)]).filter hasContent
      = [rawLine1, rawPre2 ++ e.data, rawLine3] := by
    have h1 : hasContent rawLine1 = true := by decide
    have h2 : hasContent (rawPre2 ++ e.data) = true := by
      have h0 : rawPre2.any (fun c => ¬ isIndentChar c) = true := by decide
      show (rawPre2 ++ e.data).any (fun c => ¬ isIndentChar c) = true
      rw [List.any_append, h0]
      rfl
    have h3 : hasContent rawLine3 = true := by decide
    have h4 : hasContent ([] : List Char) = false := rfl
    simp only [List.filter_cons, List.filter_nil, h1, h2, h3, h4]
    rfl
  have hmargin : marginOf [rawLine1, rawPre2 ++ e.data, rawLine3, []] = sp12.data := by
    unfold marginOf
    rw [hfil]
    have h1 : rawLine1.takeWhile isIndentChar = sp12.data := by decide
    have h2 : (rawPre2 ++ e.data).takeWhile isIndentChar = sp12.data := by
      rw [takeWhile_append_of_any _ _ _ (by decide)]
      decide
    have h3 : rawLine3.takeWhile isIndentChar = sp12.data := by decide
    simp only [List.map_cons, List.map_nil]
    rw [h1, h2, h3]
    decide
  have hrm : removeMargin sp12.data [rawLine1, rawPre2 ++ e.data, rawLine3, []]
      = [hdrLine.data, errPre.data ++ e.data, retryLine.data, []] := by
    unfold removeMargin
    rw [if_neg (by decide : ¬ (sp12.data = ([] : List Char)))]
    have h1 : (if startsWithL sp12.data rawLine1 = true
        then rawLine1.drop sp12.data.length else rawLine1) = hdrLine.data := by decide
    have hsw : startsWithL sp12.data (rawPre2 ++ e.data) = true :=
      startsWithL_append_left _ _ _ (by decide)
    have hdrop : (rawPre2 ++ e.data).drop sp12.data.length = errPre.data ++ e.data := by
      rw [List.drop_append_of_le_length (by decide)]
      have : rawPre2.drop sp12.data.length = errPre.data := by decide
      rw [this]
    have h2 : (if startsWithL sp12.data (rawPre2 ++ e.data) = true
        then (rawPre2 ++ e.data).drop sp12.data.length else rawPre2 ++ e.data)
        = errPre.data ++ e.data := by
      rw [if_pos hsw, hdrop]
    have h3 : (if startsWithL sp12.data rawLine3 = true
        then rawLine3.drop sp12.data.length else rawLine3) = retryLine.data := by decide
    have h4 : (if startsWithL sp12.data ([] : List Char) = true
        then ([] : List Char).drop sp12.data.length else []) = ([] : List Char) := by decide
    simp only [List.map_cons, List.map_nil]
    rw [h1, h2, h3, h4]
  have hclean : dedentL (fallbackRaw e).data
      = hdrLine.data ++ '\n' :: ((errPre.data ++ e.data)
        ++ '\n' :: (retryLine.data ++ ['\n'])) := by
    unfold dedentL
    rw [hblank]
    simp only [hmargin, hrm]
    simp [joinNl]
  have hlit1 : ("# Meta-Feedback (Process-Oriented)\nThe feedback service encountered an error: " : String).data
      = hdrLine.data ++ '\n' :: errPre.data := by decide
  have hlit2 : ("\nPlease retry the instructor-triggered workflow.\n" : String).data
      = '\n' :: (retryLine.data ++ ['\n']) := by decide
  have hfinal : (("# Meta-Feedback (Process-Oriented)\nThe feedback service encountered an error: " : String)
        ++ e ++ ("\nPlease retry the instructor-triggered workflow.\n" : String)).data
      = hdrLine.data ++ '\n' :: ((errPre.data ++ e.data)
        ++ '\n' :: (retryLine.data ++ ['\n'])) := by
    rw [data_append, data_append, hlit1, hlit2]
    simp [List.append_assoc]
  show String.mk (dedentL (fallbackRaw e).data) = _
  rw [hclean, ← hfinal]

set_option maxRecDepth 8000 in
/-- C3 counterexample: with a generation collaborator that always fails
with the message "A\nB", the artifact is still written (with the
fallback document) and the checkpoint still advances, but the artifact's
text is not the claimed literal error plus retry instruction: the
message's unindented second line collapses `textwrap.dedent`'s common
margin to the empty string, so all three template lines keep their
twelve-space indentation. -/
theorem claim_c3_counterexample :
    artifactWrites (main envFailNl).2
      = [("Meta-Feedback_20260101_0000.md", fallback_doc "A\nB")] ∧
    checkpointWrites (main envFailNl).2 = ["h1"] ∧
    fallback_doc "A\nB"
      ≠ "# Meta-Feedback (Process-Oriented)\nThe feedback service encountered an error: "
          ++ "A\nB" ++ "\nPlease retry the instructor-triggered workflow.\n" ∧
    fallback_doc "A\nB"
      = "            # Meta-Feedback (Process-Oriented)\n            The feedback service encountered an error: A\nB\n            Please retry the instructor-triggered workflow.\n" :=
  ⟨rfl, rfl, by decide, by decide⟩

/-- C3 amended: every failure of the generation collaborator is caught
and not propagated — the invocation still succeeds, the artifact is
still written (its text the `textwrap.dedent` of the fallback template
with the error message interpolated), and the checkpoint still advances
to the head resolved at the start; when the error message contains no
newline, the artifact's text equals the literal error message plus a
retry instruction. -/
theorem claim_c3_amended : ∀ (env : Env) (e : String) (d : DiffInfo) (b7 : String),
    (∀ sp up, env.gpt sp up = .error e) →
    pyEqStr (resolveLast env.stored env.initialCommit) env.head = false →
    git_diff env.git (resolveLast env.stored env.initialCommit) env.head = .ok d →
    pySlice7 (resolveLast env.stored env.initialCommit) = .ok b7 →
    main env = (.ok (),
      [.writeArtifact ("Meta-Feedback_" ++ env.stamp ++ ".md") (fallback_doc e),
       .writeCheckpoint env.head,
       .printLine ("Wrote " ++ ("Meta-Feedback_" ++ env.stamp ++ ".md"))]) ∧
    ('\n' ∉ e.data →
      fallback_doc e
        = "# Meta-Feedback (Process-Oriented)\nThe feedback service encountered an error: "
          ++ e ++ "\nPlease retry the instructor-triggered workflow.\n") := by
  intro env e d b7 hgpt hpe hgd hs
  constructor
  · simp [main, hpe, hgd, hs, hgpt]
  · intro he
    exact fallback_doc_eq e he

theorem claim_c3_amended_witness :
    (∀ sp up, envFail.gpt sp up = .error "boom") ∧
    main envFail = (.ok (),
      [.writeArtifact ("Meta-Feedback_" ++ envFail.stamp ++ ".md") (fallback_doc "boom"),
       .writeCheckpoint envFail.head,
       .printLine ("Wrote " ++ ("Meta-Feedback_" ++ envFail.stamp ++ ".md"))]) ∧
    fallback_doc "boom"
      = "# Meta-Feedback (Process-Oriented)\nThe feedback service encountered an error: "
        ++ "boom" ++ "\nPlease retry the instructor-triggered workflow.\n" := by
  have h := claim_c3_amended envFail "boom"
    ⟨"M\talgorithm.py", "1 file changed", "diff --git a b", "treetxt", "logtxt"⟩ "r0"
    (fun _ _ => rfl) rfl rfl rfl
  exact ⟨fun _ _ => rfl, h.1, h.2 (by decide)⟩

end GenerateFeedback
